import Mathlib

/-!
Shallow embedding of the travel-information dashboard
(`weather-places14.py`): geocoding, nearby search, weather, directions
and the per-view aggregation functions, together with an explicit log of
provider and distance-library calls made by each function.

Numeric JSON fields that only ever flow into formatted output through
Python's `str()` (the weather temperature and the place rating) are
modelled as their provider-native decimal rendering, a `String`.
Coordinates are exact rationals; the geodesic-distance library call is a
field of the environment so that theorems quantify over every possible
distance function where the code treats it as a black box.
-/

namespace ExplorePlaces

/-- A `geometry.location` object of the geocoding provider. -/
structure GeoLoc where
  lat : ℚ
  lng : ℚ
deriving DecidableEq

/-- Response of the geocoding provider: HTTP status and `results[]`. -/
structure GeocodeResp where
  status : ℕ
  results : List GeoLoc
deriving DecidableEq

/-- The `type=` versus `keyword=` query parameter of a nearby search. -/
inductive NearbyFilter where
  | keyword (s : String)
  | ptype (s : String)
deriving DecidableEq

/-- One element of a nearby-search `results[]`: `name`, optional
`vicinity`, optional `rating` (its decimal rendering), and
`geometry.location`. -/
structure PlaceResult where
  name : String
  vicinity : Option String
  rating : Option String
  loc : ℚ × ℚ
deriving DecidableEq

/-- Weather-provider response: HTTP status, `main.temp` (as rendered by
Python string interpolation) and `weather[0].description`. -/
structure WeatherResp where
  status : ℕ
  tempStr : String
  desc : String
deriving DecidableEq

/-- One leg of a directions route: `duration.text` and `distance.text`. -/
structure Leg where
  durationText : String
  distanceText : String
deriving DecidableEq, Inhabited

/-- One route of a directions response; per the provider contract
`legs` is nonempty, the code reads `legs[0]`. -/
structure Route where
  legs : List Leg
deriving DecidableEq

/-- Directions-provider response: `routes[]`. -/
structure DirectionsResp where
  routes : List Route
deriving DecidableEq

/-- One outbound call made by the program: a provider HTTP request or a
geodesic-distance library invocation. -/
inductive Call where
  | geocode (place : String)
  | nearby (loc : ℚ × ℚ) (radius : ℕ) (filter : NearbyFilter)
  | weather (location : String)
  | directions (origin destination : String)
  | distance (a b : ℚ × ℚ)
deriving DecidableEq

/-- The external world: pure response functions for each provider plus
the geodesic-distance library (`geodesic(...).km`). -/
structure Env where
  geocode : String → GeocodeResp
  nearby : (ℚ × ℚ) → ℕ → NearbyFilter → List PlaceResult
  weather : String → WeatherResp
  directions : String → String → DirectionsResp
  dist : (ℚ × ℚ) → (ℚ × ℚ) → ℚ

/-- Python truthiness of an optional float coordinate: `None` and `0.0`
are falsy, every other value is truthy. -/
def pyTruthy : Option ℚ → Bool
  | none => false
  | some q => decide (q ≠ 0)

/-- Python `str.capitalize()`: first character upper-cased, the rest
lower-cased. -/
def pyCapitalize (s : String) : String :=
  match s.data with
  | [] => ""
  | c :: cs => String.mk (c.toUpper :: cs.map Char.toLower)

/-- Round `n / d` (a nonnegative fraction, `d > 0`) to the nearest
natural number, ties to the even one, as Python's float formatting
does. -/
def roundTiesEvenNat (n d : ℕ) : ℕ :=
  let s := n / d
  let r := n % d
  if 2 * r < d then s
  else if d < 2 * r then s + 1
  else if s % 2 = 0 then s else s + 1

/-- Python `f"{x:.1f}"`: decimal rendering with exactly one digit after
the point (round the magnitude of `10 * x` to the nearest integer, ties
to even, then place the decimal point). -/
def fmt1 (q : ℚ) : String :=
  let m := roundTiesEvenNat (q.num * 10).natAbs q.den
  (if q < 0 then "-" else "") ++ toString (m / 10) ++ "." ++ toString (m % 10)

/-- `get_weather(location)`: one weather-provider call; on HTTP 200 the
formatted temperature and capitalized description, otherwise the fixed
fallback text. -/
def get_weather (env : Env) (location : String) : String × List Call :=
  let r := env.weather location
  (if r.status = 200 then
    "🌡️ " ++ r.tempStr ++ " °C, " ++ pyCapitalize r.desc
   else "⚠️ Couldn't fetch weather.", [Call.weather location])

/-- `get_coordinates(place)`: one geocoding call; on HTTP 200 with a
nonempty `results`, the first result's latitude/longitude, else the
`(None, None)` sentinel. -/
def get_coordinates (env : Env) (place : String) : (Option ℚ × Option ℚ) × List Call :=
  let r := env.geocode place
  (if r.status = 200 then
    match r.results with
    | [] => (none, none)
    | loc :: _ => (some loc.lat, some loc.lng)
   else (none, none), [Call.geocode place])

/-- `get_nearest_railway_station_coords(place)`: geocode the place
(`if lat is None` guard), then a 20 km keyword search for
"railway station", taking the first result's location. -/
def get_nearest_railway_station_coords (env : Env) (place : String) :
    (Option ℚ × Option ℚ) × List Call :=
  let c := (get_coordinates env place).1
  let k := (get_coordinates env place).2
  match c with
  | (some lat, some lng) =>
      let results := env.nearby (lat, lng) 20000 (NearbyFilter.keyword "railway station")
      let k2 := k ++ [Call.nearby (lat, lng) 20000 (NearbyFilter.keyword "railway station")]
      match results with
      | [] => ((none, none), k2)
      | p :: _ => ((some p.loc.1, some p.loc.2), k2)
  | _ => ((none, none), k)

/-- The `for p in results` loop of `get_places_with_distances`: for each
candidate, one geodesic-distance call from the station coordinate and
one formatted line. -/
def placesLoop (env : Env) (stc : ℚ × ℚ) : List PlaceResult → List String × List Call
  | [] => ([], [])
  | p :: rest =>
      let d := env.dist stc p.loc
      let line := p.name ++ " (" ++ p.vicinity.getD "" ++ ") - ⭐ " ++ p.rating.getD "N/A"
        ++ " - 📏 " ++ fmt1 d ++ " km from station"
      let rec_ := placesLoop env stc rest
      (line :: rec_.1, Call.distance stc p.loc :: rec_.2)

/-- `get_places_with_distances(place, place_type)`: geocode the place and
its nearest railway station, short-circuit to `[]` when
`not lat or not station_lat`, else a 50 km typed search around the
place's own coordinate and one formatted line per candidate with the
distance from the station. -/
def get_places_with_distances (env : Env) (place place_type : String) :
    List String × List Call :=
  let c := (get_coordinates env place).1
  let stc := (get_nearest_railway_station_coords env place).1
  let k := (get_coordinates env place).2 ++ (get_nearest_railway_station_coords env place).2
  match c, stc with
  | (some lat, some lng), (some slat, some slng) =>
      if lat = 0 ∨ slat = 0 then ([], k)
      else
        let results := env.nearby (lat, lng) 50000 (NearbyFilter.ptype place_type)
        let body := placesLoop env (slat, slng) results
        (body.1, k ++ [Call.nearby (lat, lng) 50000 (NearbyFilter.ptype place_type)] ++ body.2)
  | _, _ => ([], k)

/-- The candidate list used by `get_nearest_airport_info`: the 200 km
"international airport" keyword search, replaced by a single retry with
the generic "airport" keyword when it comes back empty. -/
def airportCandidates (env : Env) (lat lng : ℚ) : List PlaceResult :=
  let r1 := env.nearby (lat, lng) 200000 (NearbyFilter.keyword "international airport")
  if r1.isEmpty then env.nearby (lat, lng) 200000 (NearbyFilter.keyword "airport") else r1

/-- The running-minimum test `dist < min_dist` of
`get_nearest_airport_info`; `min_dist` starts at infinity, so with no
candidate held yet the test is true. -/
def betterCand (d : ℚ) : Option (PlaceResult × ℚ) → Bool
  | none => true
  | some pm => decide (d < pm.2)

/-- The `for airport in results` loop of `get_nearest_airport_info`:
running minimum over the candidates, logging one geodesic-distance call
per candidate. -/
def airportLoop (env : Env) (center : ℚ × ℚ) :
    List PlaceResult → Option (PlaceResult × ℚ) → Option (PlaceResult × ℚ) × List Call
  | [], acc => (acc, [])
  | a :: rest, acc =>
      let d := env.dist center a.loc
      let next := if betterCand d acc then some (a, d) else acc
      let rec_ := airportLoop env center rest next
      (rec_.1, Call.distance center a.loc :: rec_.2)

/-- `get_nearest_airport_info(place)`: `("Unknown", 0.0)` when the place
cannot be geocoded (`if lat is None`), else the 200 km airport search
with its single fallback, a minimum scan over the candidates by distance
from the place's own center, and `("Not Found", 0.0)` when no candidate
exists. -/
def get_nearest_airport_info (env : Env) (place : String) : (String × ℚ) × List Call :=
  let c := (get_coordinates env place).1
  let k1 := (get_coordinates env place).2
  match c with
  | (some lat, some lng) =>
      let req1 := Call.nearby (lat, lng) 200000 (NearbyFilter.keyword "international airport")
      let k2 :=
        if (env.nearby (lat, lng) 200000 (NearbyFilter.keyword "international airport")).isEmpty
        then [req1, Call.nearby (lat, lng) 200000 (NearbyFilter.keyword "airport")]
        else [req1]
      let body := airportLoop env (lat, lng) (airportCandidates env lat lng) none
      match body.1 with
      | some ad => ((ad.1.name ++ " (" ++ ad.1.vicinity.getD "" ++ ")", ad.2), k1 ++ k2 ++ body.2)
      | none => (("Not Found", 0), k1 ++ k2 ++ body.2)
  | _ => (("Unknown", 0), k1)

/-- Outcome of `show_travel_info`: the hard `st.error` ("Could not fetch
travel data."), the rendered travel markdown (its computed fields), or
the `st.warning` when the directions provider returns no routes. -/
inductive TravelOutput where
  | fetchError
  | info (airportName : String) (airportDist : ℚ)
      (duration distanceText mapLink : String)
  | noRoute
deriving DecidableEq

/-- Python `s.replace(' ', '+')`: the single-character pattern makes
this a per-character substitution. -/
def replaceSpaces (s : String) : String :=
  String.mk (s.data.map fun c => if c = ' ' then '+' else c)

/-- The Google-Maps directions link of `show_travel_info`, spaces
replaced by `+` in both segments. -/
def map_link (user_location place : String) : String :=
  "https://www.google.com/maps/dir/" ++ replaceSpaces user_location ++ "/"
    ++ replaceSpaces place

/-- `show_travel_info(place, user_location)`: geocode the place and its
railway station (the station result is never inspected), hard error on
falsy latitude, else airport lookup, one directions call, and either the
rendered travel info or the no-route warning. -/
def show_travel_info (env : Env) (place user_location : String) :
    TravelOutput × List Call :=
  let c := (get_coordinates env place).1
  let k1 := (get_coordinates env place).2
  let k2 := (get_nearest_railway_station_coords env place).2
  if pyTruthy c.1 then
    let air := get_nearest_airport_info env place
    let r := env.directions user_location place
    let k := k1 ++ k2 ++ air.2 ++ [Call.directions user_location place]
    match r.routes with
    | [] => (TravelOutput.noRoute, k)
    | route :: _ =>
        let leg := route.legs.headI
        (TravelOutput.info air.1.1 air.1.2 leg.durationText leg.distanceText
          (map_link user_location place), k)
  else (TravelOutput.fetchError, k1 ++ k2)

/-- Degrees to radians. -/
noncomputable def rad (x : ℝ) : ℝ := x * Real.pi / 180

/-- WGS-84 equatorial semi-axis, in kilometres. -/
noncomputable def wgsA : ℝ := 6378.137

/-- WGS-84 polar semi-axis, in kilometres. -/
noncomputable def wgsB : ℝ := 6356.752314245

/-- A (latitude, longitude) pair in degrees mapped to its point on the
WGS-84 ellipsoid in Euclidean 3-space (kilometres). -/
noncomputable def toSurface (p : ℝ × ℝ) : EuclideanSpace ℝ (Fin 3) :=
  (WithLp.equiv 2 (Fin 3 → ℝ)).symm
    ![wgsA * Real.cos (rad p.1) * Real.cos (rad p.2),
      wgsA * Real.cos (rad p.1) * Real.sin (rad p.2),
      wgsB * Real.sin (rad p.1)]

/-- The WGS-84 ellipsoid surface: the quadric with semi-axes `wgsA`,
`wgsA`, `wgsB`. -/
def ellipsoidKm : Set (EuclideanSpace ℝ (Fin 3)) :=
  {x | (x 0 / wgsA) ^ 2 + (x 1 / wgsA) ^ 2 + (x 2 / wgsB) ^ 2 = 1}

/-- A continuous path on a surface `S`, parametrized on `[0, 1]`, from
`x` to `y`. -/
structure SurfacePath (S : Set (EuclideanSpace ℝ (Fin 3)))
    (x y : EuclideanSpace ℝ (Fin 3)) where
  toFun : ℝ → EuclideanSpace ℝ (Fin 3)
  source : toFun 0 = x
  target : toFun 1 = y
  mem : Set.MapsTo toFun (Set.Icc 0 1) S
  cont : ContinuousOn toFun (Set.Icc 0 1)

/-- Euclidean arc length of a surface path: its total variation over
`[0, 1]`. -/
noncomputable def pathLength {S x y} (γ : SurfacePath S x y) : ENNReal :=
  eVariationOn γ.toFun (Set.Icc 0 1)

/-- Shortest-path (intrinsic) distance on a surface: the infimum of
arc lengths of continuous surface paths joining the two points (`⊤`
when no such path exists). -/
noncomputable def surfDist (S : Set (EuclideanSpace ℝ (Fin 3)))
    (x y : EuclideanSpace ℝ (Fin 3)) : ENNReal :=
  ⨅ γ : SurfacePath S x y, pathLength γ

/-- A surface path traversed backwards. -/
noncomputable def SurfacePath.reverse {S x y} (γ : SurfacePath S x y) :
    SurfacePath S y x where
  toFun := γ.toFun ∘ (fun t => 1 - t)
  source := by simpa using γ.target
  target := by simpa using γ.source
  mem := fun t ht => γ.mem ⟨by simp at ht ⊢; linarith [ht.2], by simp at ht ⊢; linarith [ht.1]⟩
  cont := γ.cont.comp (Continuous.continuousOn (by continuity))
    (fun t ht => ⟨by simp at ht ⊢; linarith [ht.2], by simp at ht ⊢; linarith [ht.1]⟩)

/-- The constant path at a surface point. -/
noncomputable def SurfacePath.const (S : Set (EuclideanSpace ℝ (Fin 3)))
    (x : EuclideanSpace ℝ (Fin 3)) (hx : x ∈ S) : SurfacePath S x x where
  toFun := fun _ => x
  source := rfl
  target := rfl
  mem := fun _ _ => hx
  cont := continuousOn_const

/-- Modelled from the spec: the `DistanceCalculator` contract
(`geodesic(...).km` of the geopy library, whose implementation is not
part of this repository) — per the spec's glossary, the shortest-path
distance in kilometres between two (latitude, longitude) points on an
ellipsoidal model of the Earth (WGS-84, geopy's default): the infimum
of Euclidean arc lengths of continuous paths on the ellipsoid surface
joining the two mapped points. -/
noncomputable def geodesicKm (p q : ℝ × ℝ) : ENNReal :=
  surfDist ellipsoidKm (toSurface p) (toSurface q)

/-- A weather world returning HTTP 200, temperature rendering "25" and
description "CLEAR Sky". -/
def envW : Env where
  geocode := fun _ => ⟨200, []⟩
  nearby := fun _ _ _ => []
  weather := fun _ => ⟨200, "25", "CLEAR Sky"⟩
  directions := fun _ _ => ⟨[]⟩
  dist := fun _ _ => 0

/-- Recognizer for nearby-search provider calls in a call log. -/
def isNearbyCall : Call → Bool
  | Call.nearby _ _ _ => true
  | _ => false

/-- A world where only "Paris" geocodes, every nearby search is empty,
and the directions provider knows one route. -/
def e1 : Env where
  geocode := fun s => if s = "Paris" then ⟨200, [⟨10, 20⟩]⟩ else ⟨200, []⟩
  nearby := fun _ _ _ => []
  weather := fun _ => ⟨200, "25", "clear sky"⟩
  directions := fun _ _ => ⟨[⟨[⟨"2 hours", "300 km"⟩]⟩]⟩
  dist := fun _ _ => 0

/-- A world where only "X" geocodes, every nearby search is empty (so
the railway-station lookup fails), and the directions provider has no
routes. -/
def e2 : Env where
  geocode := fun s => if s = "X" then ⟨200, [⟨10, 20⟩]⟩ else ⟨200, []⟩
  nearby := fun _ _ _ => []
  weather := fun _ => ⟨200, "25", "clear sky"⟩
  directions := fun _ _ => ⟨[]⟩
  dist := fun _ _ => 0

/-- A world with a resolvable place, a railway station, and two
restaurant candidates; the distance library returns the candidate's
first coordinate. -/
def envB : Env where
  geocode := fun _ => ⟨200, [⟨13, 75⟩]⟩
  nearby := fun _ _ f =>
    match f with
    | NearbyFilter.keyword "railway station" => [⟨"Stn", none, none, (14, 76)⟩]
    | NearbyFilter.ptype "restaurant" =>
        [⟨"A", some "Addr", some "4.5", (mkRat 32 10, 0)⟩, ⟨"B", none, none, (0, 0)⟩]
    | _ => []
  weather := fun _ => ⟨200, "25", "clear sky"⟩
  directions := fun _ _ => ⟨[]⟩
  dist := fun _ b => b.1

/-- A world with a resolvable place where every nearby search — in
particular both airport searches — is empty. -/
def envC : Env where
  geocode := fun _ => ⟨200, [⟨10, 20⟩]⟩
  nearby := fun _ _ _ => []
  weather := fun _ => ⟨200, "25", "clear sky"⟩
  directions := fun _ _ => ⟨[]⟩
  dist := fun _ _ => 0

/-- A world where geocoding always fails with a non-success status. -/
def envU : Env where
  geocode := fun _ => ⟨404, []⟩
  nearby := fun _ _ _ => []
  weather := fun _ => ⟨200, "25", "clear sky"⟩
  directions := fun _ _ => ⟨[]⟩
  dist := fun _ _ => 0

/-- A world where "Eq" geocodes to latitude exactly 0 and any other
place to latitude 5 with longitude 0; a railway station exists. -/
def e9 : Env where
  geocode := fun s => if s = "Eq" then ⟨200, [⟨0, 77⟩]⟩ else ⟨200, [⟨5, 0⟩]⟩
  nearby := fun _ _ f =>
    match f with
    | NearbyFilter.keyword "railway station" => [⟨"Stn", none, none, (6, 1)⟩]
    | _ => []
  weather := fun _ => ⟨200, "25", "clear sky"⟩
  directions := fun _ _ => ⟨[]⟩
  dist := fun _ _ => 0

theorem toSurface_mem (p : ℝ × ℝ) : toSurface p ∈ ellipsoidKm := by
  have h1 := Real.sin_sq_add_cos_sq (rad p.1)
  have h2 := Real.sin_sq_add_cos_sq (rad p.2)
  have hA : wgsA ≠ 0 := by norm_num [wgsA]
  have hB : wgsB ≠ 0 := by norm_num [wgsB]
  simp only [ellipsoidKm, toSurface, Set.mem_setOf_eq, WithLp.equiv_symm_pi_apply,
    Matrix.cons_val_zero, Matrix.cons_val_one, Matrix.head_cons, Matrix.cons_val_two,
    Matrix.tail_cons]
  field_simp
  linear_combination (wgsA ^ 2 * Real.cos (rad p.1) ^ 2) * h2 + wgsA ^ 2 * h1

theorem reverse_length {S x y} (γ : SurfacePath S x y) :
    pathLength γ.reverse = pathLength γ := by
  unfold pathLength SurfacePath.reverse
  have h := eVariationOn.comp_eq_of_antitoneOn γ.toFun (fun t : ℝ => 1 - t)
    (fun a _ b _ hab => by dsimp only; linarith :
      AntitoneOn (fun t : ℝ => 1 - t) (Set.Icc 0 1))
  rw [h, show (fun t : ℝ => 1 - t) '' Set.Icc 0 1 = Set.Icc 0 1 by
    rw [Set.image_const_sub_Icc]; norm_num]

theorem surfDist_comm (S : Set (EuclideanSpace ℝ (Fin 3)))
    (x y : EuclideanSpace ℝ (Fin 3)) : surfDist S x y = surfDist S y x := by
  unfold surfDist
  apply le_antisymm <;>
  · apply le_iInf
    intro γ
    rw [← reverse_length γ]
    exact iInf_le _ γ.reverse

theorem surfDist_self (S : Set (EuclideanSpace ℝ (Fin 3)))
    (x : EuclideanSpace ℝ (Fin 3)) (hx : x ∈ S) : surfDist S x x = 0 := by
  apply le_antisymm _ (zero_le _)
  refine le_trans (iInf_le _ (SurfacePath.const S x hx)) ?_
  unfold pathLength SurfacePath.const
  rw [eVariationOn.constant_on]
  rintro a ⟨t, _, rfl⟩ b ⟨u, _, rfl⟩
  rfl

/-! ### Helper lemmas -/

theorem get_coordinates_snd (env : Env) (place : String) :
    (get_coordinates env place).2 = [Call.geocode place] := rfl

theorem station_calls (env : Env) (place : String) :
    (get_nearest_railway_station_coords env place).2 = [Call.geocode place] ∨
    ∃ lat lng, (get_nearest_railway_station_coords env place).2 =
      [Call.geocode place,
       Call.nearby (lat, lng) 20000 (NearbyFilter.keyword "railway station")] := by
  unfold get_nearest_railway_station_coords
  rcases h : (get_coordinates env place).1 with ⟨_ | la, _ | ln⟩ <;>
    simp [h, get_coordinates_snd]
  rcases env.nearby (la, ln) 20000 (NearbyFilter.keyword "railway station") with _ | ⟨p, ps⟩ <;>
    simp

theorem placesLoop_fst (env : Env) (stc : ℚ × ℚ) (l : List PlaceResult) :
    (placesLoop env stc l).1 = l.map (fun p =>
      p.name ++ " (" ++ p.vicinity.getD "" ++ ") - ⭐ " ++ p.rating.getD "N/A"
        ++ " - 📏 " ++ fmt1 (env.dist stc p.loc) ++ " km from station") := by
  induction l with
  | nil => rfl
  | cons p rest ih => simp [placesLoop, ih]

theorem placesLoop_snd (env : Env) (stc : ℚ × ℚ) (l : List PlaceResult) :
    (placesLoop env stc l).2 = l.map (fun p => Call.distance stc p.loc) := by
  induction l with
  | nil => rfl
  | cons p rest ih => simp [placesLoop, ih]

theorem airportLoop_snd (env : Env) (c : ℚ × ℚ) (l : List PlaceResult)
    (acc : Option (PlaceResult × ℚ)) :
    (airportLoop env c l acc).2 = l.map (fun a => Call.distance c a.loc) := by
  induction l generalizing acc with
  | nil => rfl
  | cons a rest ih => simp [airportLoop, ih]

theorem airportLoop_isSome (env : Env) (c : ℚ × ℚ) (l : List PlaceResult)
    (acc : Option (PlaceResult × ℚ)) (h : l ≠ [] ∨ acc.isSome) :
    (airportLoop env c l acc).1.isSome := by
  induction l generalizing acc with
  | nil =>
      rcases h with h | h
      · exact absurd rfl h
      · simpa [airportLoop] using h
  | cons a rest ih =>
      simp only [airportLoop]
      apply ih
      right
      rcases acc with _ | pm
      · simp [betterCand]
      · by_cases hd : betterCand (env.dist c a.loc) (some pm) = true <;>
          simp [hd]

theorem airportLoop_min (env : Env) (c : ℚ × ℚ) (l : List PlaceResult) :
    ∀ (acc : Option (PlaceResult × ℚ)),
      (∀ p q, acc = some (p, q) → q = env.dist c p.loc) →
      ∀ a d, (airportLoop env c l acc).1 = some (a, d) →
        d = env.dist c a.loc ∧ (a ∈ l ∨ acc = some (a, d)) ∧
        (∀ b ∈ l, d ≤ env.dist c b.loc) ∧
        (∀ p q, acc = some (p, q) → d ≤ q) := by
  induction l with
  | nil =>
      intro acc hacc a d h
      simp only [airportLoop] at h
      refine ⟨hacc a d h, Or.inr h, by simp, ?_⟩
      intro p q hpq
      rw [hpq] at h
      cases h
      exact le_refl _
  | cons x rest ih =>
      intro acc hacc a d h
      simp only [airportLoop] at h
      set dx := env.dist c x.loc with hdx
      by_cases hb : betterCand dx acc = true
      · rw [if_pos hb] at h
        have hacc' : ∀ p q, (some (x, dx) : Option (PlaceResult × ℚ)) = some (p, q) →
            q = env.dist c p.loc := by
          intro p q hpq
          cases hpq
          rfl
        obtain ⟨h1, h2, h3, h4⟩ := ih (some (x, dx)) hacc' a d h
        refine ⟨h1, ?_, ?_, ?_⟩
        · rcases h2 with h2 | h2
          · exact Or.inl (List.mem_cons_of_mem _ h2)
          · obtain ⟨h5, h6⟩ := Prod.mk.injEq .. ▸ Option.some.inj h2
            rw [← h5]
            exact Or.inl (List.mem_cons_self _ _)
        · intro b hb'
          rcases List.mem_cons.mp hb' with hb' | hb'
          · rw [hb', ← hdx]
            exact h4 x dx rfl
          · exact h3 b hb'
        · intro p q hpq
          rcases acc with _ | ⟨⟨p', q'⟩⟩
          · cases hpq
          · cases hpq
            have : dx < q := by
              simpa [betterCand] using hb
            exact le_of_lt (lt_of_le_of_lt (h4 x dx rfl) this)
      · rw [if_neg hb] at h
        obtain ⟨h1, h2, h3, h4⟩ := ih acc hacc a d h
        rcases acc with _ | ⟨⟨p', q'⟩⟩
        · simp [betterCand] at hb
        · have hq' : ¬ dx < q' := by
            simpa [betterCand] using hb
          refine ⟨h1, ?_, ?_, h4⟩
          · rcases h2 with h2 | h2
            · exact Or.inl (List.mem_cons_of_mem _ h2)
            · exact Or.inr h2
          · intro b hb'
            rcases List.mem_cons.mp hb' with hb' | hb'
            · subst hb'
              exact le_trans (h4 p' q' rfl) (le_of_not_lt hq')
            · exact h3 b hb'

theorem no_distance_geo_station (env : Env) (place : String) (a b : ℚ × ℚ) :
    Call.distance a b ∉
      (get_coordinates env place).2 ++ (get_nearest_railway_station_coords env place).2 := by
  rw [get_coordinates_snd]
  rcases station_calls env place with hs | ⟨la, ln, hs⟩ <;> rw [hs] <;> simp

theorem no_directions_geo_station (env : Env) (place : String) (o d : String) :
    Call.directions o d ∉
      (get_coordinates env place).2 ++ (get_nearest_railway_station_coords env place).2 := by
  rw [get_coordinates_snd]
  rcases station_calls env place with hs | ⟨la, ln, hs⟩ <;> rw [hs] <;> simp

theorem show_travel_info_falsy (env : Env) (place user_location : String)
    (h : pyTruthy (get_coordinates env place).1.1 = false) :
    show_travel_info env place user_location =
      (TravelOutput.fetchError,
        (get_coordinates env place).2 ++ (get_nearest_railway_station_coords env place).2) := by
  simp only [show_travel_info]
  rw [h]
  simp

theorem show_travel_info_truthy (env : Env) (place user_location : String)
    (h : pyTruthy (get_coordinates env place).1.1 = true) :
    (show_travel_info env place user_location).1 ≠ TravelOutput.fetchError := by
  simp only [show_travel_info]
  rw [h]
  simp only [if_true]
  rcases (env.directions user_location place).routes with _ | ⟨r, rs⟩ <;> simp

theorem get_places_lines (env : Env) (place place_type : String)
    (lat lng slat slng : ℚ)
    (hc : (get_coordinates env place).1 = (some lat, some lng))
    (hs : (get_nearest_railway_station_coords env place).1 = (some slat, some slng))
    (hlat : lat ≠ 0) (hslat : slat ≠ 0) :
    (get_places_with_distances env place place_type).1 =
      (env.nearby (lat, lng) 50000 (NearbyFilter.ptype place_type)).map (fun p =>
        p.name ++ " (" ++ p.vicinity.getD "" ++ ") - ⭐ " ++ p.rating.getD "N/A"
          ++ " - 📏 " ++ fmt1 (env.dist (slat, slng) p.loc) ++ " km from station") := by
  simp only [get_places_with_distances, hc, hs]
  rw [if_neg (by push_neg; exact ⟨hlat, hslat⟩)]
  exact placesLoop_fst env (slat, slng) _

theorem get_places_short_circuit (env : Env) (place place_type : String)
    (h : (get_coordinates env place).1.1 = none ∨
      (get_nearest_railway_station_coords env place).1.1 = none ∨
      (∃ lng, (get_coordinates env place).1 = (some 0, lng)) ∨
      (∃ slng, (get_nearest_railway_station_coords env place).1 = (some 0, slng))) :
    get_places_with_distances env place place_type =
      ([], (get_coordinates env place).2 ++ (get_nearest_railway_station_coords env place).2) := by
  simp only [get_places_with_distances]
  rcases hc : (get_coordinates env place).1 with ⟨_ | la, _ | ln⟩ <;>
    rcases hst : (get_nearest_railway_station_coords env place).1 with ⟨_ | sa, _ | sn⟩ <;>
      rw [hc, hst] at h <;> dsimp only
  all_goals
    first
    | rfl
    | (rw [if_pos]
       rcases h with h | h | ⟨lng, h⟩ | ⟨slng, h⟩ <;> simp_all)

theorem filter_nearby_distance_map (c : ℚ × ℚ) (l : List PlaceResult) :
    (l.map (fun a => Call.distance c a.loc)).filter isNearbyCall = [] := by
  induction l with
  | nil => rfl
  | cons a rest ih => simp [isNearbyCall, ih]

/-! ### Claim theorems -/

/-- C5 counterexample: with temperature "25" and description
"CLEAR Sky" on a success status, the code returns "🌡️ 25 °C, Clear sky"
— a space between the number and °C, and the description lower-cased
beyond its first character — not the claim's "🌡️ 25°C, CLEAR Sky"
(template without the space, first letter capitalized and the rest
unchanged). -/
theorem c5_counterexample :
    (envW.weather "P").status = 200 ∧
    (envW.weather "P").tempStr = "25" ∧
    (envW.weather "P").desc = "CLEAR Sky" ∧
    (get_weather envW "P").1 = "🌡️ 25 °C, Clear sky" ∧
    (get_weather envW "P").1 ≠ "🌡️ 25°C, CLEAR Sky" := by
  refine ⟨rfl, rfl, rfl, rfl, ?_⟩
  decide

/-- C5 (amended): for every weather-provider response, `get_weather`
returns "🌡️ <temperature> °C, <description with its first character
upper-cased and the rest lower-cased>" (temperature from `main.temp`,
description from `weather[0].description`, capitalized as by Python's
`str.capitalize`) when the HTTP status is exactly 200, and the fixed
fallback text otherwise. -/
theorem get_weather_format (env : Env) (location : String) :
    (get_weather env location).1 =
      if (env.weather location).status = 200 then
        "🌡️ " ++ (env.weather location).tempStr ++ " °C, "
          ++ pyCapitalize (env.weather location).desc
      else "⚠️ Couldn't fetch weather." := rfl

/-- C6: `get_coordinates` returns the `(None, None)` sentinel exactly
when the geocoding provider returns zero results or a non-success
status, and otherwise returns the latitude/longitude of the first
result only. -/
theorem get_coordinates_spec (env : Env) (place : String) :
    ((get_coordinates env place).1 = (none, none) ↔
      ¬(env.geocode place).status = 200 ∨ (env.geocode place).results = []) ∧
    ∀ loc rest, (env.geocode place).status = 200 →
      (env.geocode place).results = loc :: rest →
      (get_coordinates env place).1 = (some loc.lat, some loc.lng) := by
  constructor
  · unfold get_coordinates
    by_cases h : (env.geocode place).status = 200
    · rcases hr : (env.geocode place).results with _ | ⟨loc, rest⟩ <;> simp [h, hr]
    · simp [h]
  · intro loc rest h hr
    unfold get_coordinates
    simp [h, hr]

/-- C6 witness: in a concrete world with status 200 and one result at
(10, 20), `get_coordinates` returns exactly that location. -/
theorem get_coordinates_spec_witness :
    (get_coordinates envC "Paris").1 = (some 10, some 20) :=
  (get_coordinates_spec envC "Paris").2 ⟨10, 20⟩ [] rfl rfl

/-- C7: the distance function (spec-modelled as the shortest-path
distance on the WGS-84 ellipsoidal model of the Earth, since the
geodesic library is external to this repository) is symmetric and zero
on equal coordinate pairs. -/
theorem geodesicKm_symm_and_self :
    (∀ a b : ℝ × ℝ, geodesicKm a b = geodesicKm b a) ∧
    (∀ a : ℝ × ℝ, geodesicKm a a = 0) :=
  ⟨fun a b => surfDist_comm ellipsoidKm (toSurface a) (toSurface b),
   fun a => surfDist_self ellipsoidKm (toSurface a) (toSurface_mem a)⟩

/-- C8: every map link produced by `show_travel_info` is the fixed URL
template with spaces replaced by `+` in the origin and destination
segments, and at origin "New York", destination "Paris" it equals the
template with "New+York" and "Paris". -/
theorem map_link_format (env : Env) (place user_location : String)
    (an : String) (ad : ℚ) (du dt ml : String)
    (h : (show_travel_info env place user_location).1 =
      TravelOutput.info an ad du dt ml) :
    ml = "https://www.google.com/maps/dir/" ++ replaceSpaces user_location ++ "/"
        ++ replaceSpaces place ∧
    map_link "New York" "Paris" = "https://www.google.com/maps/dir/New+York/Paris" := by
  refine ⟨?_, by decide⟩
  simp only [show_travel_info] at h
  by_cases hc : pyTruthy (get_coordinates env place).1.1 = true
  · rw [hc] at h
    simp only [if_true] at h
    rcases hr : (env.directions user_location place).routes with _ | ⟨route, rs⟩ <;>
      rw [hr] at h
    · cases h
    · simp only [TravelOutput.info.injEq] at h
      rw [← h.2.2.2.2]
      rfl
  · rw [Bool.not_eq_true] at hc
    rw [hc] at h
    simp at h

/-- C8 witness: in a concrete world with a resolvable place and one
route, `show_travel_info` produces exactly the template link for
origin "New York" and destination "Paris". -/
theorem map_link_format_witness :
    map_link "New York" "Paris" = "https://www.google.com/maps/dir/New+York/Paris" :=
  (map_link_format e1 "Paris" "New York" "Not Found" 0 "2 hours" "300 km"
    (map_link "New York" "Paris") (by decide)).2

/-- C1 counterexample: in `e1` the origin "Gibberish" cannot be
resolved to coordinates, yet `show_travel_info` on destination "Paris"
does not return the hard error and does call the directions provider
with that origin — the claim as stated is false. -/
theorem c1_counterexample :
    (get_coordinates e1 "Gibberish").1 = (none, none) ∧
    (show_travel_info e1 "Paris" "Gibberish").1 ≠ TravelOutput.fetchError ∧
    Call.directions "Gibberish" "Paris" ∈ (show_travel_info e1 "Paris" "Gibberish").2 := by
  refine ⟨rfl, ?_, ?_⟩ <;> decide

/-- C1 (amended): it is the destination place, not the origin, whose
failed resolution short-circuits: whenever the place's latitude is
falsy, `show_travel_info` returns the hard error immediately and makes
zero calls to the directions provider. -/
theorem travel_error_zero_directions (env : Env) (place user_location : String)
    (h : pyTruthy (get_coordinates env place).1.1 = false) :
    (show_travel_info env place user_location).1 = TravelOutput.fetchError ∧
    ∀ o d, Call.directions o d ∉ (show_travel_info env place user_location).2 := by
  rw [show_travel_info_falsy env place user_location h]
  exact ⟨rfl, fun o d => no_directions_geo_station env place o d⟩

/-- C1 witness: at the unresolvable place "Gibberish" in `e1`, the
amended theorem yields the hard error and no directions call. -/
theorem travel_error_zero_directions_witness :
    (show_travel_info e1 "Gibberish" "NY").1 = TravelOutput.fetchError ∧
    Call.directions "NY" "Gibberish" ∉ (show_travel_info e1 "Gibberish" "NY").2 :=
  ⟨(travel_error_zero_directions e1 "Gibberish" "NY" (by decide)).1,
   (travel_error_zero_directions e1 "Gibberish" "NY" (by decide)).2 "NY" "Gibberish"⟩

/-- C2 counterexample: in `e2` the place "X" resolves but its
railway-station lookup fails, yet `show_travel_info` does not
short-circuit with the error message — the claim's `show_travel_info`
part is false for station failures. -/
theorem c2_counterexample :
    (get_coordinates e2 "X").1 = (some 10, some 20) ∧
    (get_nearest_railway_station_coords e2 "X").1 = (none, none) ∧
    (show_travel_info e2 "X" "NY").1 ≠ TravelOutput.fetchError := by
  refine ⟨rfl, rfl, ?_⟩
  decide

/-- C2 (amended): when geocoding of the place or of its railway station
fails, `get_places_with_distances` returns the empty list without any
distance computation; `show_travel_info` short-circuits with the error
message, again without any distance computation, when geocoding of the
place itself fails (a station-only failure does not short-circuit it). -/
theorem resolution_failure_no_distance (env : Env)
    (place place_type user_location : String) :
    (((get_coordinates env place).1.1 = none ∨
        (get_nearest_railway_station_coords env place).1.1 = none) →
      (get_places_with_distances env place place_type).1 = [] ∧
      ∀ a b, Call.distance a b ∉ (get_places_with_distances env place place_type).2) ∧
    ((get_coordinates env place).1.1 = none →
      (show_travel_info env place user_location).1 = TravelOutput.fetchError ∧
      ∀ a b, Call.distance a b ∉ (show_travel_info env place user_location).2) := by
  constructor
  · intro h
    have h' := get_places_short_circuit env place place_type
      (by rcases h with h | h
          · exact Or.inl h
          · exact Or.inr (Or.inl h))
    rw [h']
    exact ⟨rfl, fun a b => no_distance_geo_station env place a b⟩
  · intro h
    have hf : pyTruthy (get_coordinates env place).1.1 = false := by
      rw [h]
      rfl
    rw [show_travel_info_falsy env place user_location hf]
    exact ⟨rfl, fun a b => no_distance_geo_station env place a b⟩

/-- C2 witness: in `e2`, a failed station lookup at "X" gives the empty
list with no distance call, and a failed place lookup at "Z" gives the
hard error with no distance call. -/
theorem resolution_failure_no_distance_witness :
    ((get_places_with_distances e2 "X" "restaurant").1 = [] ∧
      Call.distance (0, 0) (1, 1) ∉ (get_places_with_distances e2 "X" "restaurant").2) ∧
    ((show_travel_info e2 "Z" "NY").1 = TravelOutput.fetchError ∧
      Call.distance (0, 0) (1, 1) ∉ (show_travel_info e2 "Z" "NY").2) :=
  ⟨⟨((resolution_failure_no_distance e2 "X" "restaurant" "NY").1 (Or.inr rfl)).1,
    ((resolution_failure_no_distance e2 "X" "restaurant" "NY").1 (Or.inr rfl)).2 (0, 0) (1, 1)⟩,
   ⟨((resolution_failure_no_distance e2 "Z" "restaurant" "NY").2 rfl).1,
    ((resolution_failure_no_distance e2 "Z" "restaurant" "NY").2 rfl).2 (0, 0) (1, 1)⟩⟩

/-- C3: whenever the place and its railway station both resolve, every
line of `get_places_with_distances` is the candidate's name, its address
or the empty string, its rating or "N/A", and the distance from the
railway-station coordinate (not the place's own center) to the
candidate's coordinate formatted with exactly one decimal place. -/
theorem places_lines_format (env : Env) (place place_type : String)
    (lat lng slat slng : ℚ)
    (hc : (get_coordinates env place).1 = (some lat, some lng))
    (hs : (get_nearest_railway_station_coords env place).1 = (some slat, some slng))
    (hlat : lat ≠ 0) (hslat : slat ≠ 0) :
    (get_places_with_distances env place place_type).1 =
      (env.nearby (lat, lng) 50000 (NearbyFilter.ptype place_type)).map (fun p =>
        p.name ++ " (" ++ p.vicinity.getD "" ++ ") - ⭐ " ++ p.rating.getD "N/A"
          ++ " - 📏 " ++ fmt1 (env.dist (slat, slng) p.loc) ++ " km from station") :=
  get_places_lines env place place_type lat lng slat slng hc hs hlat hslat

/-- C3 witness: in `envB` with two restaurant candidates, the two lines
carry name, address-or-empty, rating-or-"N/A" and the one-decimal
distance from the station. -/
theorem places_lines_format_witness :
    (get_places_with_distances envB "Chikmagalur" "restaurant").1 =
      ["A (Addr) - ⭐ 4.5 - 📏 3.2 km from station",
       "B () - ⭐ N/A - 📏 0.0 km from station"] := by
  rw [places_lines_format envB "Chikmagalur" "restaurant" 13 75 14 76 rfl rfl
    (by norm_num) (by norm_num)]
  decide

/-- C4: when the place resolves and the 200 km "international airport"
search returns zero results, `get_nearest_airport_info` performs exactly
one fallback retry with the generic keyword "airport" at the same
center and radius, and no further nearby-search call. -/
theorem airport_single_fallback (env : Env) (place : String) (lat lng : ℚ)
    (hc : (get_coordinates env place).1 = (some lat, some lng))
    (h1 : env.nearby (lat, lng) 200000 (NearbyFilter.keyword "international airport") = []) :
    (get_nearest_airport_info env place).2.filter isNearbyCall =
      [Call.nearby (lat, lng) 200000 (NearbyFilter.keyword "international airport"),
       Call.nearby (lat, lng) 200000 (NearbyFilter.keyword "airport")] := by
  simp only [get_nearest_airport_info, hc]
  rcases hb : (airportLoop env (lat, lng) (airportCandidates env lat lng) none).1 with _ | ad <;>
    simp only [hb] <;>
    rw [get_coordinates_snd, airportLoop_snd] <;>
    simp [List.filter_append, filter_nearby_distance_map, isNearbyCall, h1]

/-- C4 witness: in `envC` both airport searches are empty; the
nearby-search calls made are exactly the international search and its
single generic retry. -/
theorem airport_single_fallback_witness :
    (get_nearest_airport_info envC "Pune").2.filter isNearbyCall =
      [Call.nearby (10, 20) 200000 (NearbyFilter.keyword "international airport"),
       Call.nearby (10, 20) 200000 (NearbyFilter.keyword "airport")] :=
  airport_single_fallback envC "Pune" 10 20 rfl rfl

/-- C9: a geocoding success with latitude exactly 0 makes
`get_places_with_distances` return the empty list and `show_travel_info`
report the hard travel-data error, because the null check is a
falsiness test on the latitude; a longitude of 0 with nonzero latitude
is not treated as a failure. -/
theorem zero_latitude_falsy (env : Env) (place place_type user_location : String) :
    ((get_coordinates env place).1.1 = some 0 →
      (get_places_with_distances env place place_type).1 = [] ∧
      (show_travel_info env place user_location).1 = TravelOutput.fetchError) ∧
    (∀ lat slat slng, (get_coordinates env place).1 = (some lat, some 0) → lat ≠ 0 →
      (show_travel_info env place user_location).1 ≠ TravelOutput.fetchError ∧
      ((get_nearest_railway_station_coords env place).1 = (some slat, some slng) →
        slat ≠ 0 →
        (get_places_with_distances env place place_type).1 =
          (env.nearby (lat, 0) 50000 (NearbyFilter.ptype place_type)).map (fun p =>
            p.name ++ " (" ++ p.vicinity.getD "" ++ ") - ⭐ " ++ p.rating.getD "N/A"
              ++ " - 📏 " ++ fmt1 (env.dist (slat, slng) p.loc) ++ " km from station"))) := by
  constructor
  · intro h
    constructor
    · have h' : (get_coordinates env place).1.1 = none ∨
          (get_nearest_railway_station_coords env place).1.1 = none ∨
          (∃ lng, (get_coordinates env place).1 = (some 0, lng)) ∨
          (∃ slng, (get_nearest_railway_station_coords env place).1 = (some 0, slng)) := by
        refine Or.inr (Or.inr (Or.inl ⟨(get_coordinates env place).1.2, ?_⟩))
        rw [← h]
      rw [get_places_short_circuit env place place_type h']
    · have hf : pyTruthy (get_coordinates env place).1.1 = false := by
        rw [h]
        simp [pyTruthy]
      rw [show_travel_info_falsy env place user_location hf]
  · intro lat slat slng hc hlat
    have ht : pyTruthy (get_coordinates env place).1.1 = true := by
      rw [hc]
      simp [pyTruthy, hlat]
    refine ⟨show_travel_info_truthy env place user_location ht, ?_⟩
    intro hs hslat
    exact get_places_lines env place place_type lat 0 slat slng hc hs hlat hslat

/-- C9 witness: in `e9` the place "Eq" resolves to latitude exactly 0,
giving the empty list and the hard error, while "Other" resolves to
latitude 5 with longitude 0 and is not treated as a failure. -/
theorem zero_latitude_falsy_witness :
    ((get_places_with_distances e9 "Eq" "restaurant").1 = [] ∧
      (show_travel_info e9 "Eq" "NY").1 = TravelOutput.fetchError) ∧
    (show_travel_info e9 "Other" "NY").1 ≠ TravelOutput.fetchError :=
  ⟨(zero_latitude_falsy e9 "Eq" "restaurant" "NY").1 rfl,
   (((zero_latitude_falsy e9 "Other" "restaurant" "NY").2 5 6 1 rfl (by norm_num)).1)⟩

/-- C10: `get_nearest_airport_info` returns ("Unknown", 0.0) when the
place cannot be geocoded, ("Not Found", 0.0) when both the
international-airport search and the generic fallback return zero
results, and otherwise the name-and-vicinity of a candidate whose
distance from the place's own resolved center is minimal, paired with
that minimal distance. -/
theorem nearest_airport_spec (env : Env) (place : String) :
    ((get_coordinates env place).1.1 = none →
      (get_nearest_airport_info env place).1 = ("Unknown", 0)) ∧
    (∀ lat lng, (get_coordinates env place).1 = (some lat, some lng) →
      env.nearby (lat, lng) 200000 (NearbyFilter.keyword "international airport") = [] →
      env.nearby (lat, lng) 200000 (NearbyFilter.keyword "airport") = [] →
      (get_nearest_airport_info env place).1 = ("Not Found", 0)) ∧
    (∀ lat lng, (get_coordinates env place).1 = (some lat, some lng) →
      airportCandidates env lat lng ≠ [] →
      ∃ a, a ∈ airportCandidates env lat lng ∧
        (get_nearest_airport_info env place).1 =
          (a.name ++ " (" ++ a.vicinity.getD "" ++ ")", env.dist (lat, lng) a.loc) ∧
        ∀ b ∈ airportCandidates env lat lng,
          env.dist (lat, lng) a.loc ≤ env.dist (lat, lng) b.loc) := by
  refine ⟨?_, ?_, ?_⟩
  · intro h
    simp only [get_nearest_airport_info]
    rcases hc : (get_coordinates env place).1 with ⟨_ | la, _ | ln⟩ <;>
      rw [hc] at h <;> simp_all
  · intro lat lng hc h1 h2
    simp only [get_nearest_airport_info, hc]
    simp [airportCandidates, h1, h2, airportLoop]
  · intro lat lng hc hne
    have hsome := airportLoop_isSome env (lat, lng) (airportCandidates env lat lng) none
      (Or.inl hne)
    rcases hb : (airportLoop env (lat, lng) (airportCandidates env lat lng) none).1
      with _ | ⟨a, d⟩
    · rw [hb] at hsome
      cases hsome
    · obtain ⟨h1, h2, h3, _⟩ := airportLoop_min env (lat, lng) (airportCandidates env lat lng)
        none (by intro p q hpq; cases hpq) a d hb
      rcases h2 with h2 | h2
      · refine ⟨a, h2, ?_, ?_⟩
        · simp only [get_nearest_airport_info, hc, hb]
          rw [h1]
        · intro b hbmem
          rw [← h1]
          exact h3 b hbmem
      · cases h2

/-- C10 witness: with geocoding failing in `envU` the sentinel is
("Unknown", 0.0); with both airport searches empty in `envC` it is
("Not Found", 0.0). -/
theorem nearest_airport_spec_witness :
    (get_nearest_airport_info envU "P").1 = ("Unknown", 0) ∧
    (get_nearest_airport_info envC "P").1 = ("Not Found", 0) :=
  ⟨(nearest_airport_spec envU "P").1 rfl,
   (nearest_airport_spec envC "P").2.1 10 20 rfl rfl rfl⟩

end ExplorePlaces
